import Mathlib

/-!
Verification of the card validation and rendering-state model of the `uigen`
repository, shallowly embedded from `src/Card.tsx` (the typed variant; the
untyped copy in the repository has an identical validator and error branch).

Embedding conventions:
* JavaScript strings are Lean `String`s (the inputs in the claims are ASCII,
  where JS UTF-16 length and Lean codepoint length agree).
* The validator's arguments may be absent at runtime (the untyped copy takes
  arbitrary values, the spec demands absent and empty behave alike), so both
  arguments are `Option String`; `strFalsy` embeds JavaScript truthiness
  testing (`!title`) of a possibly absent string.
* `jsTrim` and `jsToLower` embed `String.prototype.trim` and
  `String.prototype.toLowerCase` as executable functions over the character
  list (whitespace stripping at both ends; per-character lowercasing).
-/

set_option maxRecDepth 8000

/-- Embedding of `String.prototype.trim`: drop whitespace characters from
both ends of the string. -/
def jsTrim (s : String) : String :=
  ⟨((s.data.dropWhile Char.isWhitespace).reverse.dropWhile Char.isWhitespace).reverse⟩

/-- Embedding of `String.prototype.toLowerCase`: lowercase each character. -/
def jsToLower (s : String) : String :=
  ⟨s.data.map Char.toLower⟩

/-- JavaScript truthiness test `!s` for a string that may be absent
(`undefined`/`null`): falsy exactly for an absent value or the empty
string. -/
def strFalsy : Option String → Bool
  | none => true
  | some s => s == ""

/-- Return type of `validateCardProps` (interface `CardValidation` in
`src/Card.tsx`). -/
structure CardValidation where
  isValid : Bool
  message : String
deriving DecidableEq, Repr

/- The six canonical messages of `validateCardProps`, verbatim from
`src/Card.tsx` lines 46, 53, 60, 67, 74 and 80.  The two "too long" messages
interpolate the raw length as in the template literals of the source. -/

def missingTitleMsg : String :=
  "Card title is required and cannot be empty. Please provide a meaningful title to describe your content."

def titleTooLongMsg (n : Nat) : String :=
  "Card title is too long (" ++ (toString n ++ "/100 characters). Please use a concise title that summarizes your content effectively.")

def missingDescriptionMsg : String :=
  "Card description is required and cannot be empty. Please provide a clear description to give users context about your content."

def descriptionTooLongMsg (n : Nat) : String :=
  "Card description is too long (" ++ (toString n ++ "/500 characters). Please provide a concise description that highlights the key information.")

def duplicateContentMsg : String :=
  "Card title and description should be different. The description should provide additional context beyond the title."

def validMsg : String :=
  "Card content is valid and provides meaningful information to users."

/-- Embedding of `validateCardProps` (`src/Card.tsx` lines 42–82): the
five guard clauses in source order, each returning its canonical message,
and the final valid verdict. -/
def validateCardProps (title description : Option String) : CardValidation :=
  let t := title.getD ""
  let d := description.getD ""
  if strFalsy title || (jsTrim t).length == 0 then
    { isValid := false, message := missingTitleMsg }
  else if t.length > 100 then
    { isValid := false, message := titleTooLongMsg t.length }
  else if strFalsy description || (jsTrim d).length == 0 then
    { isValid := false, message := missingDescriptionMsg }
  else if d.length > 500 then
    { isValid := false, message := descriptionTooLongMsg d.length }
  else if jsToLower (jsTrim t) == jsToLower (jsTrim d) then
    { isValid := false, message := duplicateContentMsg }
  else
    { isValid := true, message := validMsg }

/-- The `variant` keys of `cardVariants` in `src/Card.tsx`. -/
inductive Variant
  | default | featured | interactive | compact | status
deriving DecidableEq, Repr

/-- The `size` keys of `cardVariants` in `src/Card.tsx`. -/
inductive Size
  | sm | default | lg
deriving DecidableEq, Repr

/-- The `status` keys of `cardVariants` in `src/Card.tsx`. -/
inductive Status
  | none | success | warning | error | info
deriving DecidableEq, Repr

/-- The two render modes of the `Card` component: the early-return alert
branch (`ValidationError`) and the ordinary article branch (`Normal`). -/
inductive RenderMode
  | Normal | ValidationError
deriving DecidableEq, Repr

/-- The arguments the `Card` component passes to the style lookup
`cardVariants({ variant, size, status, className })`; `none` stands for an
argument the caller left `undefined`. -/
structure StyleArgs where
  variant : Option Variant
  size : Option Size
  status : Option Status
  className : Option String
deriving DecidableEq, Repr

/-- The props of the `Card` component that the render decision reads
(`src/Card.tsx` lines 92–102). -/
structure CardInput where
  className : Option String
  variant : Option Variant
  size : Option Size
  status : Option Status
  title : Option String
  description : Option String
  showValidation : Bool
deriving DecidableEq, Repr

/-- Abstraction of the element tree either branch of `Card` returns: which
branch was taken, the arguments given to the style lookup, the ARIA role,
and the heading and body text rendered. -/
structure CardView where
  mode : RenderMode
  styleArgs : StyleArgs
  role : String
  header : Option String
  body : Option String
deriving DecidableEq, Repr

/-- The verdict a `Card` instance computes on render
(`src/Card.tsx` line 103). -/
def cardVerdict (inp : CardInput) : CardValidation :=
  validateCardProps inp.title inp.description

/-- Embedding of the render decision of `Card` (`src/Card.tsx` lines
109–154): when the verdict is invalid and `showValidation` is set, the alert
branch fixes the style lookup to `variant: "status"`, `status: "error"`,
keeps the caller's `size` and `className`, and shows `validation.message`;
otherwise the ordinary branch passes the caller's own keys and content. -/
def renderCard (inp : CardInput) : CardView :=
  let validation := cardVerdict inp
  if !validation.isValid && inp.showValidation then
    { mode := RenderMode.ValidationError
      styleArgs :=
        { variant := some Variant.status
          size := inp.size
          status := some Status.error
          className := inp.className }
      role := "alert"
      header := some "Invalid Card Configuration"
      body := some validation.message }
  else
    { mode := RenderMode.Normal
      styleArgs :=
        { variant := inp.variant
          size := inp.size
          status := inp.status
          className := inp.className }
      role := "article"
      header := inp.title
      body := inp.description }

/-- The render-mode selection in isolation, as the spec's
`resolveRenderMode(verdict, showValidation)`: exactly the condition of the
early return `if (!validation.isValid && showValidation)` of `Card`. -/
def resolveRenderMode (v : CardValidation) (showValidation : Bool) : RenderMode :=
  if !v.isValid && showValidation then RenderMode.ValidationError else RenderMode.Normal

/-- One render-and-commit step of a `Card` instance with or without a
registered `onValidationChange` observer.  The effect of `src/Card.tsx`
lines 105–107 has dependency array `[validation, onValidationChange]` and
`validation` is a freshly allocated object every render, so the effect runs
after every committed render; it calls the observer with the verdict of the
render exactly once when one is registered (`onValidationChange?.(validation)`)
and not at all otherwise.  Returns the committed view and the list of
observer calls the render causes, in order. -/
def cardRenderStep (inp : CardInput) (hasObserver : Bool) : CardView × List CardValidation :=
  (renderCard inp, if hasObserver then [cardVerdict inp] else [])

/-- Rule chain of spec §4.1, written from the spec's own words: the six
rules in the stated order with short-circuit, presence tested on the trimmed
string, lengths on the untrimmed original, the duplicate rule on the
trimmed lower-cased fields. -/
def specValidate (title description : Option String) : CardValidation :=
  match title with
  | none => { isValid := false, message := missingTitleMsg }
  | some t =>
    if jsTrim t = "" then { isValid := false, message := missingTitleMsg }
    else if t.length > 100 then { isValid := false, message := titleTooLongMsg t.length }
    else
      match description with
      | none => { isValid := false, message := missingDescriptionMsg }
      | some d =>
        if jsTrim d = "" then { isValid := false, message := missingDescriptionMsg }
        else if d.length > 500 then { isValid := false, message := descriptionTooLongMsg d.length }
        else if jsToLower (jsTrim t) = jsToLower (jsTrim d) then
          { isValid := false, message := duplicateContentMsg }
        else { isValid := true, message := validMsg }

/-- The first 24 characters of a message, enough to tell the six canonical
messages apart independently of the interpolated lengths. -/
def kindTag (s : String) : List Char := s.data.take 24

/-- Decode which of the six verdict kinds a message belongs to (0 to 5 in
rule order; 6 for a string that is none of them). -/
def kindIndex (s : String) : Nat :=
  if kindTag s = ("Card title is required a").data then 0
  else if kindTag s = ("Card title is too long (").data then 1
  else if kindTag s = ("Card description is requ").data then 2
  else if kindTag s = ("Card description is too ").data then 3
  else if kindTag s = ("Card title and descripti").data then 4
  else if kindTag s = ("Card content is valid an").data then 5
  else 6

/-- Which rule of the §4.1 chain fires first, in rule order (0 to 4 the
failure rules, 5 the valid case). -/
def branchIndex (t d : Option String) : Nat :=
  if strFalsy t || (jsTrim (t.getD "")).length == 0 then 0
  else if (t.getD "").length > 100 then 1
  else if strFalsy d || (jsTrim (d.getD "")).length == 0 then 2
  else if (d.getD "").length > 500 then 3
  else if jsToLower (jsTrim (t.getD "")) == jsToLower (jsTrim (d.getD "")) then 4
  else 5

/-- The disjunction of the six verdict shapes of §7: the five failure
verdicts with their canonical messages and the success verdict. -/
def SixKinds (v : CardValidation) : Prop :=
  v = ⟨false, missingTitleMsg⟩
  ∨ (∃ n, v = ⟨false, titleTooLongMsg n⟩)
  ∨ v = ⟨false, missingDescriptionMsg⟩
  ∨ (∃ n, v = ⟨false, descriptionTooLongMsg n⟩)
  ∨ v = ⟨false, duplicateContentMsg⟩
  ∨ v = ⟨true, validMsg⟩

/-- Title of exactly 100 characters, for the boundary checks. -/
def title100 : String := ⟨List.replicate 100 'a'⟩

/-- Title of exactly 101 characters, for the boundary checks. -/
def title101 : String := ⟨List.replicate 101 'a'⟩

/-- Description of exactly 500 characters, for the boundary checks. -/
def descr500 : String := ⟨List.replicate 500 'b'⟩

/-- Description of exactly 501 characters, for the boundary checks. -/
def descr501 : String := ⟨List.replicate 501 'b'⟩

lemma kindTag_titleTooLongMsg (n : Nat) :
    kindTag (titleTooLongMsg n) = ("Card title is too long (").data := by
  unfold kindTag titleTooLongMsg
  rw [String.data_append]
  exact List.take_left' (by decide)

lemma kindTag_descriptionTooLongMsg (n : Nat) :
    kindTag (descriptionTooLongMsg n) = ("Card description is too ").data := by
  unfold kindTag descriptionTooLongMsg
  rw [String.data_append, List.take_append_of_le_length (by decide)]
  decide

lemma kindIndex_titleTooLongMsg (n : Nat) : kindIndex (titleTooLongMsg n) = 1 := by
  unfold kindIndex
  rw [kindTag_titleTooLongMsg]
  decide

lemma kindIndex_descriptionTooLongMsg (n : Nat) : kindIndex (descriptionTooLongMsg n) = 3 := by
  unfold kindIndex
  rw [kindTag_descriptionTooLongMsg]
  decide

lemma kindIndex_missingTitleMsg : kindIndex missingTitleMsg = 0 := by decide

lemma kindIndex_missingDescriptionMsg : kindIndex missingDescriptionMsg = 2 := by decide

lemma kindIndex_duplicateContentMsg : kindIndex duplicateContentMsg = 4 := by decide

lemma kindIndex_validMsg : kindIndex validMsg = 5 := by decide

lemma ne_of_kindIndex {a b : String} (h : kindIndex a ≠ kindIndex b) : a ≠ b :=
  fun he => h (he ▸ rfl)

lemma kindIndex_message (t d : Option String) :
    kindIndex (validateCardProps t d).message = branchIndex t d := by
  simp only [validateCardProps, branchIndex]
  split_ifs <;>
    simp [kindIndex_missingTitleMsg, kindIndex_titleTooLongMsg,
      kindIndex_missingDescriptionMsg, kindIndex_descriptionTooLongMsg,
      kindIndex_duplicateContentMsg, kindIndex_validMsg]

lemma str_length_eq_zero (s : String) : s.length = 0 ↔ s = "" := by
  constructor
  · intro h
    exact String.ext (List.length_eq_zero.mp h)
  · intro h; simp [h]

lemma cond1_iff (x : String) :
    (strFalsy (some x) || (jsTrim x).length == 0) = true ↔ jsTrim x = "" := by
  simp only [strFalsy, Bool.or_eq_true, beq_iff_eq]
  constructor
  · rintro (rfl | h)
    · rfl
    · exact (str_length_eq_zero _).mp h
  · intro h
    exact Or.inr ((str_length_eq_zero _).mpr h)

lemma validate_eq_spec (t d : Option String) : validateCardProps t d = specValidate t d := by
  cases t with
  | none => rfl
  | some x =>
    cases d with
    | none =>
      simp only [validateCardProps, specValidate, Option.getD_some]
      by_cases hx : jsTrim x = ""
      · rw [if_pos ((cond1_iff x).mpr hx), if_pos hx]
      · rw [if_neg (fun hc => hx ((cond1_iff x).mp hc)), if_neg hx]
        by_cases hlen : x.length > 100
        · rw [if_pos hlen, if_pos hlen]
        · rw [if_neg hlen, if_neg hlen]
          rfl
    | some y =>
      simp only [validateCardProps, specValidate, Option.getD_some]
      by_cases hx : jsTrim x = ""
      · rw [if_pos ((cond1_iff x).mpr hx), if_pos hx]
      · rw [if_neg (fun hc => hx ((cond1_iff x).mp hc)), if_neg hx]
        by_cases hlen : x.length > 100
        · rw [if_pos hlen, if_pos hlen]
        · rw [if_neg hlen, if_neg hlen]
          by_cases hy : jsTrim y = ""
          · rw [if_pos ((cond1_iff y).mpr hy), if_pos hy]
          · rw [if_neg (fun hc => hy ((cond1_iff y).mp hc)), if_neg hy]
            by_cases hdlen : y.length > 500
            · rw [if_pos hdlen, if_pos hdlen]
            · rw [if_neg hdlen, if_neg hdlen]
              by_cases hdup : jsToLower (jsTrim x) = jsToLower (jsTrim y)
              · rw [if_pos (beq_iff_eq.mpr hdup), if_pos hdup]
              · rw [if_neg (fun hc => hdup (beq_iff_eq.mp hc)), if_neg hdup]

/-- Claim C1: `validateCardProps` evaluates exactly the six rules of §4.1 in
the stated order with short-circuit (it agrees pointwise with the rule chain
written from the spec's words, first failing rule winning with its canonical
message); in particular an absent, empty or all-whitespace title is always
classified as missing title, never as too long or duplicate. -/
theorem validateCardProps_follows_rule_chain :
    (∀ t d, validateCardProps t d = specValidate t d)
    ∧ (∀ t d, jsTrim (t.getD "") = "" →
        validateCardProps t d = ⟨false, missingTitleMsg⟩) := by
  refine ⟨validate_eq_spec, ?_⟩
  intro t d h
  cases t with
  | none => rfl
  | some x =>
    simp only [Option.getD_some] at h
    simp only [validateCardProps, Option.getD_some]
    rw [if_pos ((cond1_iff x).mpr h)]

/-- Witness for C1 at the whitespace-only title `"   "`. -/
theorem validateCardProps_follows_rule_chain_witness :
    validateCardProps (some "   ") (some "x") = ⟨false, missingTitleMsg⟩ :=
  validateCardProps_follows_rule_chain.2 (some "   ") (some "x") (by decide)

/-- Claim C2: the render mode is `ValidationError` iff the verdict is invalid
and `showValidation` is set; in every other case the mode is `Normal` and the
(possibly invalid) content is rendered as an ordinary card with the caller's
own style keys, role `article`, and the title and description as content. -/
theorem renderMode_iff_invalid_and_show :
    ∀ inp : CardInput,
      ((renderCard inp).mode = RenderMode.ValidationError ↔
        ((validateCardProps inp.title inp.description).isValid = false ∧ inp.showValidation = true))
      ∧ (renderCard inp).mode
          = resolveRenderMode (validateCardProps inp.title inp.description) inp.showValidation
      ∧ (¬((validateCardProps inp.title inp.description).isValid = false ∧ inp.showValidation = true) →
          (renderCard inp).mode = RenderMode.Normal
          ∧ (renderCard inp).styleArgs = ⟨inp.variant, inp.size, inp.status, inp.className⟩
          ∧ (renderCard inp).role = "article"
          ∧ (renderCard inp).header = inp.title
          ∧ (renderCard inp).body = inp.description) := by
  intro inp
  simp only [renderCard, resolveRenderMode, cardVerdict]
  by_cases hc : (!(validateCardProps inp.title inp.description).isValid && inp.showValidation) = true
  · rw [if_pos hc, if_pos hc]
    rcases Bool.and_eq_true _ _ |>.mp hc with ⟨hv, hs⟩
    refine ⟨⟨fun _ => ⟨Bool.not_eq_true' .. |>.mp hv, hs⟩, fun _ => rfl⟩, rfl, fun hn => ?_⟩
    exact absurd ⟨Bool.not_eq_true' .. |>.mp hv, hs⟩ hn
  · rw [if_neg hc, if_neg hc]
    refine ⟨⟨fun h => RenderMode.noConfusion h, fun hb => ?_⟩, rfl, fun _ => ⟨rfl, rfl, rfl, rfl, rfl⟩⟩
    exact absurd (Bool.and_eq_true _ _ |>.mpr ⟨Bool.not_eq_true' .. |>.mpr hb.1, hb.2⟩) hc

/-- Witness for C2 at an invalid input with `showValidation = false`:
rendered as an ordinary card. -/
theorem renderMode_iff_invalid_and_show_witness :
    (renderCard ⟨none, none, none, none, some "", some "Valid description", false⟩).mode
      = RenderMode.Normal :=
  ((renderMode_iff_invalid_and_show
      ⟨none, none, none, none, some "", some "Valid description", false⟩).2.2 (by decide)).1

/-- Claim C5: in the `ValidationError` view the caller's requested variant and
status are overridden — the style lookup receives `variant: "status"` and
`status: "error"` — and the diagnostic body equals `verdict.message` exactly. -/
theorem validationError_overrides_presentation :
    ∀ inp : CardInput, (renderCard inp).mode = RenderMode.ValidationError →
      (renderCard inp).styleArgs.variant = some Variant.status
      ∧ (renderCard inp).styleArgs.status = some Status.error
      ∧ (renderCard inp).role = "alert"
      ∧ (renderCard inp).body = some (validateCardProps inp.title inp.description).message := by
  intro inp h
  simp only [renderCard, cardVerdict] at *
  by_cases hc : (!(validateCardProps inp.title inp.description).isValid && inp.showValidation) = true
  · rw [if_pos hc]
    exact ⟨rfl, rfl, rfl, rfl⟩
  · rw [if_neg hc] at h
    exact RenderMode.noConfusion h

/-- Witness for C5: a card with absent title, a caller-requested `featured`
variant and `success` status, and `showValidation = true`. -/
theorem validationError_overrides_presentation_witness :
    (renderCard ⟨some "c", some Variant.featured, some Size.lg, some Status.success,
        none, some "d", true⟩).styleArgs.variant = some Variant.status :=
  (validationError_overrides_presentation
      ⟨some "c", some Variant.featured, some Size.lg, some Status.success,
        none, some "d", true⟩ (by decide)).1

/-- Claim C7: the verdict a `Card` computes is a pure function of
`(title, description)` alone — identical for any variant, size, status,
class name and `showValidation` flag — and recomputation with identical
arguments yields identical results. -/
theorem cardVerdict_pure_in_title_description :
    ∀ (t d c₁ c₂ : Option String) (v₁ v₂ : Option Variant) (s₁ s₂ : Option Size)
      (st₁ st₂ : Option Status) (b₁ b₂ : Bool),
      cardVerdict ⟨c₁, v₁, s₁, st₁, t, d, b₁⟩ = cardVerdict ⟨c₂, v₂, s₂, st₂, t, d, b₂⟩
      ∧ validateCardProps t d = validateCardProps t d :=
  fun _ _ _ _ _ _ _ _ _ _ _ _ => ⟨rfl, rfl⟩

/-- Claim C8: a committed render of a live `Card` emits the verdict of that
render to the `onValidationChange` observer exactly once when an observer is
registered and never otherwise; the emitted verdict is the one that drove the
render decision; and a mount with `("Valid title", "Valid description")` and
an observer yields exactly one call with the valid verdict. -/
theorem onValidationChange_emission_contract :
    (∀ inp : CardInput, (cardRenderStep inp false).2 = [])
    ∧ (∀ inp : CardInput, (cardRenderStep inp true).2 = [cardVerdict inp])
    ∧ (∀ inp : CardInput, (cardRenderStep inp true).1 = renderCard inp
        ∧ resolveRenderMode (cardVerdict inp) inp.showValidation = (renderCard inp).mode)
    ∧ (cardRenderStep ⟨none, none, none, none, some "Valid title", some "Valid description", false⟩
          true).2
        = [⟨true, "Card content is valid and provides meaningful information to users."⟩] := by
  refine ⟨fun _ => rfl, fun _ => rfl, fun inp => ⟨rfl, ?_⟩, by decide⟩
  simp only [renderCard, resolveRenderMode, cardVerdict]
  by_cases hc : (!(validateCardProps inp.title inp.description).isValid && inp.showValidation) = true
  · rw [if_pos hc, if_pos hc]
  · rw [if_neg hc, if_neg hc]

/-- Claim C10: the `ValidationError` view overrides only variant and status;
the caller's requested size and className reach the style lookup unchanged. -/
theorem validationError_keeps_size_and_className :
    ∀ inp : CardInput, (renderCard inp).mode = RenderMode.ValidationError →
      (renderCard inp).styleArgs.size = inp.size
      ∧ (renderCard inp).styleArgs.className = inp.className := by
  intro inp h
  simp only [renderCard, cardVerdict] at *
  by_cases hc : (!(validateCardProps inp.title inp.description).isValid && inp.showValidation) = true
  · rw [if_pos hc]
    exact ⟨rfl, rfl⟩
  · rw [if_neg hc] at h
    exact RenderMode.noConfusion h

/-- Witness for C10: a card with whitespace-only title keeps its requested
small size and custom class in the error view. -/
theorem validationError_keeps_size_and_className_witness :
    (renderCard ⟨some "mycls", some Variant.compact, some Size.sm, some Status.info,
        some "  ", some "body", true⟩).styleArgs.size = some Size.sm :=
  (validationError_keeps_size_and_className
      ⟨some "mycls", some Variant.compact, some Size.sm, some Status.info,
        some "  ", some "body", true⟩ (by decide)).1

/-- Claim C3: length thresholds are strict and measured on the untrimmed
original strings — title fails exactly when its raw length exceeds 100
(exactly 100 passes), description exactly when its raw length exceeds 500
(exactly 500 passes) — and each too-long message interpolates the actual raw
length against the limit, as in "101/100 characters" and "501/500
characters". -/
theorem length_thresholds_strict_on_raw :
    (∀ t d : String, jsTrim t ≠ "" →
      (validateCardProps (some t) (some d) = ⟨false, titleTooLongMsg t.length⟩ ↔ 100 < t.length))
    ∧ (∀ t d : String, jsTrim t ≠ "" → t.length ≤ 100 → jsTrim d ≠ "" →
      (validateCardProps (some t) (some d) = ⟨false, descriptionTooLongMsg d.length⟩ ↔
        500 < d.length))
    ∧ validateCardProps (some title100) (some "desc") = ⟨true, validMsg⟩
    ∧ validateCardProps (some title101) (some "desc") = ⟨false, titleTooLongMsg 101⟩
    ∧ titleTooLongMsg 101 = "Card title is too long (101/100 characters). Please use a concise title that summarizes your content effectively."
    ∧ validateCardProps (some "Title") (some descr500) = ⟨true, validMsg⟩
    ∧ validateCardProps (some "Title") (some descr501) = ⟨false, descriptionTooLongMsg 501⟩
    ∧ descriptionTooLongMsg 501 = "Card description is too long (501/500 characters). Please provide a concise description that highlights the key information." := by
  refine ⟨?_, ?_, by decide, by decide, by decide, by decide, by decide, by decide⟩
  · intro t d ht
    constructor
    · intro h
      by_contra hnot
      have hk := kindIndex_message (some t) (some d)
      simp only [h, kindIndex_titleTooLongMsg] at hk
      unfold branchIndex at hk
      simp only [Option.getD_some] at hk
      rw [if_neg (fun hc => ht ((cond1_iff t).mp hc)), if_neg hnot] at hk
      split_ifs at hk <;> omega
    · intro hlt
      simp only [validateCardProps, Option.getD_some]
      rw [if_neg (fun hc => ht ((cond1_iff t).mp hc)), if_pos hlt]
  · intro t d ht hle hd
    constructor
    · intro h
      by_contra hnot
      have hk := kindIndex_message (some t) (some d)
      simp only [h, kindIndex_descriptionTooLongMsg] at hk
      unfold branchIndex at hk
      simp only [Option.getD_some] at hk
      rw [if_neg (fun hc => ht ((cond1_iff t).mp hc)), if_neg (by omega : ¬t.length > 100),
        if_neg (fun hc => hd ((cond1_iff d).mp hc)), if_neg hnot] at hk
      split_ifs at hk <;> omega
    · intro hlt
      simp only [validateCardProps, Option.getD_some]
      rw [if_neg (fun hc => ht ((cond1_iff t).mp hc)), if_neg (by omega : ¬t.length > 100),
        if_neg (fun hc => hd ((cond1_iff d).mp hc)), if_pos hlt]

/-- Witness for C3 at the boundary inputs of exactly 101 and 501
characters. -/
theorem length_thresholds_strict_on_raw_witness :
    validateCardProps (some title101) (some "desc")
        = ⟨false, titleTooLongMsg title101.length⟩
    ∧ validateCardProps (some "Title") (some descr501)
        = ⟨false, descriptionTooLongMsg descr501.length⟩ :=
  ⟨(length_thresholds_strict_on_raw.1 title101 "desc" (by decide)).mpr (by decide),
   (length_thresholds_strict_on_raw.2.1 "Title" descr501 (by decide) (by decide)
      (by decide)).mpr (by decide)⟩

/-- Claim C4: the duplicate rule compares the trimmed, lower-cased title with
the trimmed, lower-cased description; `("Same Content", "same content")` is a
duplicate, `("  Valid Title  ", "  Valid description  ")` is valid, and in
general the duplicate verdict holds exactly when presence and length checks
pass on the raw strings and the trimmed lower-cased fields coincide. -/
theorem duplicate_compares_trimmed_lowercased :
    validateCardProps (some "Same Content") (some "same content")
        = ⟨false, duplicateContentMsg⟩
    ∧ validateCardProps (some "  Valid Title  ") (some "  Valid description  ")
        = ⟨true, validMsg⟩
    ∧ ∀ t d : String,
        (validateCardProps (some t) (some d) = ⟨false, duplicateContentMsg⟩ ↔
          (jsTrim t ≠ "" ∧ t.length ≤ 100 ∧ jsTrim d ≠ "" ∧ d.length ≤ 500 ∧
            jsToLower (jsTrim t) = jsToLower (jsTrim d))) := by
  refine ⟨by decide, by decide, ?_⟩
  intro t d
  constructor
  · intro h
    have hk := kindIndex_message (some t) (some d)
    simp only [h, kindIndex_duplicateContentMsg] at hk
    unfold branchIndex at hk
    simp only [Option.getD_some] at hk
    split_ifs at hk with h1 h2 h3 h4 h5 <;> try omega
    exact ⟨fun he => h1 ((cond1_iff t).mpr he), by omega,
      fun he => h3 ((cond1_iff d).mpr he), by omega, beq_iff_eq.mp h5⟩
  · rintro ⟨h1, h2, h3, h4, h5⟩
    simp only [validateCardProps, Option.getD_some]
    rw [if_neg (fun hc => h1 ((cond1_iff t).mp hc)), if_neg (by omega : ¬t.length > 100),
      if_neg (fun hc => h3 ((cond1_iff d).mp hc)), if_neg (by omega : ¬d.length > 500),
      if_pos (beq_iff_eq.mpr h5)]

/-- Claim C6: `validateCardProps` is total — every input yields exactly one
of the six verdict kinds — and an absent title or description is classified
identically to an empty string. -/
theorem validateCardProps_total_six_kinds :
    (∀ t d, SixKinds (validateCardProps t d))
    ∧ (∀ d, validateCardProps none d = validateCardProps (some "") d)
    ∧ (∀ t, validateCardProps t none = validateCardProps t (some "")) := by
  refine ⟨?_, ?_, ?_⟩
  · intro t d
    simp only [validateCardProps, SixKinds]
    split_ifs
    · exact Or.inl rfl
    · exact Or.inr (Or.inl ⟨_, rfl⟩)
    · exact Or.inr (Or.inr (Or.inl rfl))
    · exact Or.inr (Or.inr (Or.inr (Or.inl ⟨_, rfl⟩)))
    · exact Or.inr (Or.inr (Or.inr (Or.inr (Or.inl rfl))))
    · exact Or.inr (Or.inr (Or.inr (Or.inr (Or.inr rfl))))
  · intro d
    rw [validate_eq_spec, validate_eq_spec]
    simp only [specValidate]
    rw [if_pos (by decide : jsTrim "" = "")]
  · intro t
    rw [validate_eq_spec, validate_eq_spec]
    cases t with
    | none => rfl
    | some x =>
      simp only [specValidate]
      by_cases hx : jsTrim x = ""
      · rw [if_pos hx, if_pos hx]
      · rw [if_neg hx, if_neg hx]
        by_cases hlen : x.length > 100
        · rw [if_pos hlen, if_pos hlen]
        · rw [if_neg hlen, if_neg hlen]
          rw [if_pos (by decide : jsTrim "" = "")]

/-- Claim C9: a verdict is valid exactly when its message is the canonical
success message; the kind of every verdict is recoverable from the message
alone (the 24-character message prefix decodes the firing rule), and the six
canonical messages are pairwise distinct for all interpolated lengths. -/
theorem verdict_kind_recoverable_from_message :
    (∀ t d, ((validateCardProps t d).isValid = true ↔
        (validateCardProps t d).message = validMsg))
    ∧ (∀ t d, kindIndex (validateCardProps t d).message = branchIndex t d)
    ∧ (∀ m n, List.Pairwise (fun a b => a ≠ b)
        [missingTitleMsg, titleTooLongMsg m, missingDescriptionMsg,
          descriptionTooLongMsg n, duplicateContentMsg, validMsg]) := by
  refine ⟨?_, kindIndex_message, ?_⟩
  · intro t d
    simp only [validateCardProps]
    split_ifs
    · exact ⟨fun h => False.elim h, fun h => absurd (congrArg kindIndex h) (by decide)⟩
    · refine ⟨fun h => False.elim h, fun h => ?_⟩
      have hk := congrArg kindIndex h
      rw [kindIndex_titleTooLongMsg, kindIndex_validMsg] at hk
      exact absurd hk (by decide)
    · exact ⟨fun h => False.elim h, fun h => absurd (congrArg kindIndex h) (by decide)⟩
    · refine ⟨fun h => False.elim h, fun h => ?_⟩
      have hk := congrArg kindIndex h
      rw [kindIndex_descriptionTooLongMsg, kindIndex_validMsg] at hk
      exact absurd hk (by decide)
    · exact ⟨fun h => False.elim h, fun h => absurd (congrArg kindIndex h) (by decide)⟩
    · exact ⟨fun _ => rfl, fun _ => rfl⟩
  · intro m n
    have hmap : List.map kindIndex
        [missingTitleMsg, titleTooLongMsg m, missingDescriptionMsg,
          descriptionTooLongMsg n, duplicateContentMsg, validMsg] = [0, 1, 2, 3, 4, 5] := by
      simp [kindIndex_missingTitleMsg, kindIndex_titleTooLongMsg,
        kindIndex_missingDescriptionMsg, kindIndex_descriptionTooLongMsg,
        kindIndex_duplicateContentMsg, kindIndex_validMsg]
    have hp : List.Pairwise (fun a b : Nat => a ≠ b)
        (List.map kindIndex
          [missingTitleMsg, titleTooLongMsg m, missingDescriptionMsg,
            descriptionTooLongMsg n, duplicateContentMsg, validMsg]) := by
      rw [hmap]; decide
    exact (List.pairwise_map.mp hp).imp fun h => ne_of_kindIndex h
